import Mathlib

/-!
Shallow embedding of routes/admin/admin.js (portfolio backend admin router).

Modelling conventions:
- JavaScript string-or-absent values are Option String; JS truthiness on them
  is: none (undefined or null) and some "" are falsy, everything else truthy.
- The storage backend is a list of repo-root-relative file paths. Multer
  writes files under "uploads/<bucket>/"; the router stores web paths of the
  shape "/uploads/<bucket>/<filename>" in the database. The helper
  deleteOldFile resolves a stored path with path.join(dirname, "../../", p),
  which lands at the repo root, so resolution strips a leading slash.
- Database collections (profiles, users, education, experience) are lists;
  findOne and findById are find?, save replaces the matching record,
  deleteMany is filter, insertMany is append.
-/

/-- JS truthiness of a string-or-absent value: undefined, null and "" are falsy. -/
def truthy : Option String → Bool
  | none => false
  | some s => !(s == "")

/-- The JS expression a or-else b for string-or-absent values (the || operator). -/
def jsOr (incoming existing : Option String) : Option String :=
  if truthy incoming then incoming else existing

/-- Characters matched by the \s regex class (ASCII range). -/
def isJsWhitespace (c : Char) : Bool :=
  c == ' ' || c == '\t' || c == '\n' || c == '\r' || c == Char.ofNat 11 || c == Char.ofNat 12

/-- Worker for the regex replace of whitespace runs: the flag records whether
the previous character was whitespace (so the run already emitted its underscore). -/
def collapseGo : Bool → List Char → List Char
  | _, [] => []
  | prevWs, c :: rest =>
    if isJsWhitespace c then
      if prevWs then collapseGo true rest
      else '_' :: collapseGo true rest
    else c :: collapseGo false rest

/-- originalname.replace(whitespace-run regex, "_"): each maximal whitespace run
becomes a single underscore. -/
def collapseWs (s : String) : String := ⟨collapseGo false s.data⟩

/-- Decides whether the first list is an initial segment of the second. -/
def listIsPre : List Char → List Char → Bool
  | [], _ => true
  | _ :: _, [] => false
  | a :: as, b :: bs => a == b && listIsPre as bs

/-- JS s.startsWith(p). -/
def jsStartsWith (s p : String) : Bool := listIsPre p.data s.data

/-- Multer destination callback: bucket directory from the declared mimetype. -/
def bucketFor (mimetype : String) : String :=
  if jsStartsWith mimetype "image/" then "uploads/images"
  else if mimetype == "application/pdf" then "uploads/pdfs"
  else if jsStartsWith mimetype "video/" then "uploads/videos"
  else "uploads/others"

/-- Multer filename callback: Date.now() + "-" + sanitized original name. -/
def genName (now : Nat) (originalname : String) : String :=
  toString now ++ "-" ++ collapseWs originalname

/-- An uploaded payload: declared media type, original filename, and the value
of Date.now() when multer stored it. -/
structure UploadedFile where
  mimetype : String
  originalname : String
  now : Nat
deriving DecidableEq, Repr

/-- The generated filename multer records for the stored file. -/
def storedFilename (f : UploadedFile) : String := genName f.now f.originalname

/-- The repo-root-relative location where multer actually writes the payload. -/
def storedLocation (f : UploadedFile) : String :=
  bucketFor f.mimetype ++ "/" ++ storedFilename f

/-- req.files[slot] ? [0].filename || null. -/
def fileField (f? : Option UploadedFile) : Option String :=
  match f? with
  | none => none
  | some f => if storedFilename f == "" then none else some (storedFilename f)

/-- path.join(dirname, "../../", p) for the root-absolute web paths this router
stores: resolution against the repo root strips the leading slash. -/
def resolveStored (p : String) : String :=
  match p.data with
  | '/' :: rest => ⟨rest⟩
  | _ => p

/-- The resolved storage location a stored-path option points at. -/
def resolvedTarget (o : Option String) : String := resolveStored (o.getD "")

/-- deleteOldFile from admin.js: falsy path returns immediately; otherwise the
resolved file is unlinked when it exists, and a missing file is not an error. -/
def deleteOldFile (filePath : Option String) (fs : List String) : List String :=
  if truthy filePath then
    let fullPath := resolveStored (filePath.getD "")
    if fullPath ∈ fs then fs.filter (fun q => !(q == fullPath)) else fs
  else fs

/-- Profile document (mongoose model Profile as used by this router). -/
structure Profile where
  userId : Nat
  name : String
  profilePic : Option String
  profilePic2 : Option String
  pdf : Option String
  video : Option String
  aboutText : Option String
deriving DecidableEq, Repr

/-- User document (fields this router reads or mutates). -/
structure User where
  id : Nat
  email : String
  name : Option String
  phoneNumber : Option String
  degree : Option String
  birthday : Option String
  address : Option String
  experience : Option String
deriving DecidableEq, Repr

/-- Incoming education entry (request body fields, pre-stamping). -/
structure EduIn where
  degreeName : Option String
  collegeName : Option String
  fromYear : Option String
  toYear : Option String
deriving DecidableEq, Repr

/-- Persisted education document. -/
structure Education where
  userId : Nat
  degreeName : Option String
  collegeName : Option String
  fromYear : Option String
  toYear : Option String
deriving DecidableEq, Repr

/-- Incoming experience entry (request body fields, pre-stamping). -/
structure ExpIn where
  designation : Option String
  companyName : Option String
  fromTime : Option String
  toTime : Option String
deriving DecidableEq, Repr

/-- Persisted experience document. -/
structure Experience where
  userId : Nat
  designation : Option String
  companyName : Option String
  fromTime : Option String
  toTime : Option String
deriving DecidableEq, Repr

/-- Whole observable state: storage backend plus the four collections. -/
structure St where
  fs : List String
  profiles : List Profile
  users : List User
  educations : List Education
  experiences : List Experience
deriving DecidableEq, Repr

/-- A POST /update-profile request after auth middleware ran: resolved caller
id (absent on auth failure), body text fields, and the four file slots. -/
structure UpdateReq where
  user : Option Nat
  name : Option String
  phoneNumber : Option String
  degree : Option String
  birthday : Option String
  address : Option String
  experience : Option String
  aboutText : Option String
  profilePic : Option UploadedFile
  profilePic2 : Option UploadedFile
  resumePdf : Option UploadedFile
  video : Option UploadedFile
deriving DecidableEq, Repr

/-- Multer writing one optional slot to disk. -/
def optWrite (f? : Option UploadedFile) (fs : List String) : List String :=
  match f? with
  | none => fs
  | some f => fs ++ [storedLocation f]

/-- The upload middleware stores every attached file before the handler runs. -/
def multerWrite (req : UpdateReq) (fs : List String) : List String :=
  optWrite req.video (optWrite req.resumePdf (optWrite req.profilePic2 (optWrite req.profilePic fs)))

/-- One conditional reclamation step:
if (newFilename and oldPath) deleteOldFile(oldPath). -/
def reclaimIf (n : Option String) (old : Option String) (fs : List String) : List String :=
  if truthy n && truthy old then deleteOldFile old fs else fs

/-- field = newFilename ? bucketDir + newFilename : old. -/
def dbPath (bucketDir : String) (n : Option String) (old : Option String) : Option String :=
  if truthy n then some (bucketDir ++ n.getD "") else old

/-- The update branch of the handler: mutate the found profile in place. -/
def mergedProfile (profile : Profile) (name : String) (pn p2n rn vn about : Option String) : Profile :=
  { profile with
    name := name
    profilePic := dbPath "/uploads/images/" pn profile.profilePic
    profilePic2 := dbPath "/uploads/images/" p2n profile.profilePic2
    pdf := dbPath "/uploads/pdfs/" rn profile.pdf
    video := dbPath "/uploads/videos/" vn profile.video
    aboutText := jsOr about profile.aboutText }

/-- The create branch of the handler: new Profile record. -/
def freshProfile (userId : Nat) (name : String) (pn p2n rn vn about : Option String) : Profile :=
  { userId := userId
    name := name
    profilePic := dbPath "/uploads/images/" pn none
    profilePic2 := dbPath "/uploads/images/" p2n none
    pdf := dbPath "/uploads/pdfs/" rn none
    video := dbPath "/uploads/videos/" vn none
    aboutText := about }

/-- The user-details merge: every field via the || operator (name is the
already-validated incoming name, hence truthy). -/
def mergedUser (u : User) (name : String) (req : UpdateReq) : User :=
  { u with
    name := jsOr (some name) u.name
    phoneNumber := jsOr req.phoneNumber u.phoneNumber
    degree := jsOr req.degree u.degree
    birthday := jsOr req.birthday u.birthday
    address := jsOr req.address u.address
    experience := jsOr req.experience u.experience }

/-- if (user) mutate-and-save: replace the found user record, if any. -/
def saveUser (users : List User) (userId : Nat) (name : String) (req : UpdateReq) : List User :=
  match users.find? (fun v => v.id == userId) with
  | none => users
  | some _ => users.map (fun v => if v.id == userId then
      mergedUser v name req else v)

/-- POST /update-profile. Returns (HTTP status, response profile, new state).
Multer stores attached files before the handler body runs; the handler then
checks auth (401), name (400), loads the profile, reclaims superseded files,
and upserts the profile and optionally the user. -/
def updateProfile (req : UpdateReq) (st : St) : Nat × Option Profile × St :=
  let fs0 := multerWrite req st.fs
  match req.user with
  | none => (401, none, { st with fs := fs0 })
  | some userId =>
    if truthy req.name then
      let name := req.name.getD ""
      let pn := fileField req.profilePic
      let p2n := fileField req.profilePic2
      let rn := fileField req.resumePdf
      let vn := fileField req.video
      match st.profiles.find? (fun p => p.userId == userId) with
      | some profile =>
        let fs1 := reclaimIf pn profile.profilePic fs0
        let fs2 := reclaimIf p2n profile.profilePic2 fs1
        let fs3 := reclaimIf rn profile.pdf fs2
        let fs4 := reclaimIf vn profile.video fs3
        let p' := mergedProfile profile name pn p2n rn vn req.aboutText
        (200, some p',
          { st with fs := fs4
                    profiles := st.profiles.map (fun q => if q.userId == userId then p' else q)
                    users := saveUser st.users userId name req })
      | none =>
        let p' := freshProfile userId name pn p2n rn vn req.aboutText
        (200, some p',
          { st with fs := fs0
                    profiles := st.profiles ++ [p']
                    users := saveUser st.users userId name req })
    else (400, none, { st with fs := fs0 })

/-- Request body of the education and experience endpoints: an array, a single
object, or something else entirely (string, number, null). -/
inductive EduBody where
  | arr (entries : List EduIn)
  | single (entry : EduIn)
  | invalid
deriving DecidableEq, Repr

/-- Same shape for experience submissions. -/
inductive ExpBody where
  | arr (entries : List ExpIn)
  | single (entry : ExpIn)
  | invalid
deriving DecidableEq, Repr

/-- Normalize-to-array step of POST /add-education. -/
def normalizeEdu : EduBody → Option (List EduIn)
  | .arr l => some l
  | .single e => some [e]
  | .invalid => none

/-- Normalize-to-array step of POST /add-experience. -/
def normalizeExp : ExpBody → Option (List ExpIn)
  | .arr l => some l
  | .single e => some [e]
  | .invalid => none

/-- Spread-with-userId stamping of one education entry. -/
def stampEdu (userId : Nat) (e : EduIn) : Education :=
  { userId := userId
    degreeName := e.degreeName
    collegeName := e.collegeName
    fromYear := e.fromYear
    toYear := e.toYear }

/-- Spread-with-userId stamping of one experience entry. -/
def stampExp (userId : Nat) (e : ExpIn) : Experience :=
  { userId := userId
    designation := e.designation
    companyName := e.companyName
    fromTime := e.fromTime
    toTime := e.toTime }

/-- Validation of one stamped education entry: all four fields truthy. -/
def eduValid (e : Education) : Bool :=
  truthy e.degreeName && truthy e.collegeName && truthy e.fromYear && truthy e.toYear

/-- Validation of one stamped experience entry: all four fields truthy. -/
def expValid (e : Experience) : Bool :=
  truthy e.designation && truthy e.companyName && truthy e.fromTime && truthy e.toTime

/-- POST /add-education: normalize, stamp, validate every entry (the source
loop returns at the first invalid entry with one fixed message, so the branch
taken is determined by all-valid), then deleteMany for the caller and
insertMany the stamped entries. Returns (status, inserted, new state). -/
def addEducation (userId : Nat) (body : EduBody) (st : St) : Nat × List Education × St :=
  match normalizeEdu body with
  | none => (400, [], st)
  | some entries =>
    let withUser := entries.map (stampEdu userId)
    if withUser.all eduValid then
      (200, withUser,
        { st with educations := st.educations.filter (fun e => !(e.userId == userId)) ++ withUser })
    else (400, [], st)

/-- POST /add-experience: same pipeline over the experience collection. -/
def addExperience (userId : Nat) (body : ExpBody) (st : St) : Nat × List Experience × St :=
  match normalizeExp body with
  | none => (400, [], st)
  | some entries =>
    let withUser := entries.map (stampExp userId)
    if withUser.all expValid then
      (200, withUser,
        { st with experiences := st.experiences.filter (fun e => !(e.userId == userId)) ++ withUser })
    else (400, [], st)

/-- GET /get-education: Education.find() with no filter. -/
def getEducation (st : St) : List Education := st.educations

/-- GET /get-experience: Experience.find() with no filter. -/
def getExperience (st : St) : List Experience := st.experiences

/-! ### Helper lemmas -/

theorem listIsPre_head {a b : Char} {as bs l : List Char}
    (ha : listIsPre (a :: as) l = true) (hb : listIsPre (b :: bs) l = true) : a = b := by
  cases l with
  | nil => simp [listIsPre] at ha
  | cons c t =>
    simp [listIsPre] at ha hb
    exact ha.1.trans hb.1.symm

theorem collapseGo_no_ws (b : Bool) (l : List Char) :
    ∀ c ∈ collapseGo b l, isJsWhitespace c = false := by
  induction l generalizing b with
  | nil => simp [collapseGo]
  | cons c t ih =>
    intro d hd
    by_cases hc : isJsWhitespace c = true
    · cases b with
      | true =>
        simp only [collapseGo, hc, if_true] at hd
        exact ih true d hd
      | false =>
        simp only [collapseGo, hc, if_true, if_false, Bool.false_eq_true, List.mem_cons] at hd
        rcases hd with rfl | hd
        · decide
        · exact ih true d hd
    · simp only [collapseGo, hc, if_false, Bool.false_eq_true, List.mem_cons] at hd
      rcases hd with rfl | hd
      · simpa using hc
      · exact ih false d hd

theorem collapseGo_id (b : Bool) (l : List Char) (h : ∀ c ∈ l, isJsWhitespace c = false) :
    collapseGo b l = l := by
  induction l generalizing b with
  | nil => rfl
  | cons c t ih =>
    have hc := h c (by simp)
    simp only [collapseGo, hc, if_false, Bool.false_eq_true]
    rw [ih false (fun d hd => h d (by simp [hd]))]

theorem truthy_some_iff {s : String} : truthy (some s) = true ↔ s ≠ "" := by
  simp [truthy]

theorem genName_ne_empty (now : Nat) (orig : String) : genName now orig ≠ "" := by
  intro h
  have hlen : (genName now orig).length = 0 := by rw [h]; rfl
  rw [genName] at hlen
  simp [String.length_append] at hlen
  exact absurd hlen.1.2 (by decide)

theorem storedFilename_ne_empty (f : UploadedFile) : storedFilename f ≠ "" :=
  genName_ne_empty f.now f.originalname

theorem fileField_some (f : UploadedFile) : fileField (some f) = some (storedFilename f) := by
  simp [fileField, storedFilename_ne_empty f]

theorem truthy_fileField_some (f : UploadedFile) : truthy (fileField (some f)) = true := by
  rw [fileField_some]
  exact truthy_some_iff.mpr (storedFilename_ne_empty f)

theorem deleteOldFile_falsy {o : Option String} {fs : List String} (h : truthy o = false) :
    deleteOldFile o fs = fs := by
  simp [deleteOldFile, h]

theorem deleteOldFile_sub {x : String} {o : Option String} {fs : List String}
    (h : x ∈ deleteOldFile o fs) : x ∈ fs := by
  simp only [deleteOldFile] at h
  split at h
  · split at h
    · exact List.mem_of_mem_filter h
    · exact h
  · exact h

theorem mem_deleteOldFile {x : String} {o : Option String} {fs : List String}
    (hx : x ∈ fs) (hne : x ≠ resolvedTarget o) : x ∈ deleteOldFile o fs := by
  simp only [deleteOldFile, resolvedTarget] at *
  split
  · split
    · exact List.mem_filter.mpr ⟨hx, by simpa using hne⟩
    · exact hx
  · exact hx

theorem target_not_mem_deleteOldFile {o : Option String} {fs : List String}
    (ht : truthy o = true) : resolvedTarget o ∉ deleteOldFile o fs := by
  simp only [deleteOldFile, resolvedTarget, ht, if_true]
  split
  next hmem =>
    intro hin
    rcases List.mem_filter.mp hin with ⟨-, hq⟩
    simp at hq
  next hnot => exact hnot

theorem deleteOldFile_remove_cases {x : String} {o : Option String} {fs : List String}
    (hx : x ∈ fs) (h : x ∉ deleteOldFile o fs) : truthy o = true ∧ x = resolvedTarget o := by
  by_cases ht : truthy o = true
  · exact ⟨ht, by by_contra hne; exact h (mem_deleteOldFile hx hne)⟩
  · rw [deleteOldFile_falsy (Bool.eq_false_iff.mpr ht)] at h
    exact absurd hx h

theorem reclaimIf_sub {x : String} {n old : Option String} {fs : List String}
    (h : x ∈ reclaimIf n old fs) : x ∈ fs := by
  simp only [reclaimIf] at h
  split at h
  · exact deleteOldFile_sub h
  · exact h

theorem mem_reclaimIf {x : String} {n old : Option String} {fs : List String}
    (hx : x ∈ fs) (hne : x ≠ resolvedTarget old) : x ∈ reclaimIf n old fs := by
  simp only [reclaimIf]
  split
  · exact mem_deleteOldFile hx hne
  · exact hx

theorem not_mem_reclaimIf_of_not_mem {x : String} {n old : Option String} {fs : List String}
    (hx : x ∉ fs) : x ∉ reclaimIf n old fs :=
  fun h => hx (reclaimIf_sub h)

theorem reclaimIf_remove_cases {x : String} {n old : Option String} {fs : List String}
    (hx : x ∈ fs) (h : x ∉ reclaimIf n old fs) :
    truthy n = true ∧ truthy old = true ∧ x = resolvedTarget old := by
  simp only [reclaimIf] at h
  split at h
  next hc =>
    rw [Bool.and_eq_true] at hc
    exact ⟨hc.1, hc.2, (deleteOldFile_remove_cases hx h).2⟩
  next hc => exact absurd hx h

theorem target_not_mem_reclaimIf {n old : Option String} {fs : List String}
    (hn : truthy n = true) (ho : truthy old = true) :
    resolvedTarget old ∉ reclaimIf n old fs := by
  simp only [reclaimIf, hn, ho, Bool.and_self, if_true]
  exact target_not_mem_deleteOldFile ho

theorem mem_optWrite {x : String} {f? : Option UploadedFile} {fs : List String}
    (h : x ∈ fs) : x ∈ optWrite f? fs := by
  cases f? <;> simp [optWrite, h]

theorem self_mem_optWrite {f : UploadedFile} {fs : List String} :
    storedLocation f ∈ optWrite (some f) fs := by
  simp [optWrite]

theorem mem_multerWrite {x : String} {req : UpdateReq} {fs : List String}
    (h : x ∈ fs) : x ∈ multerWrite req fs :=
  mem_optWrite (mem_optWrite (mem_optWrite (mem_optWrite h)))

theorem deleteOldFile_no_target {o : Option String} {fs : List String}
    (h : resolvedTarget o ∉ fs) : deleteOldFile o fs = fs := by
  simp only [resolvedTarget] at h
  simp [deleteOldFile, h]

/-! ### Claim theorems -/

/-- C6: bucket selection is determined solely by the declared media type: a
type starting with image/ goes to the images bucket, exactly application/pdf
goes to the pdfs bucket, a type starting with video/ goes to the videos
bucket, and every other type goes to the others bucket; the generated name is
the current time in milliseconds, a dash, and the original filename with each
whitespace run replaced by a single underscore (so the result is whitespace
free, and a whitespace-free name passes through unchanged). -/
theorem c6_classifier_and_naming (t : String) (now : Nat) (orig : String) :
    (jsStartsWith t "image/" = true → bucketFor t = "uploads/images") ∧
    (t = "application/pdf" → bucketFor t = "uploads/pdfs") ∧
    (jsStartsWith t "video/" = true → bucketFor t = "uploads/videos") ∧
    (jsStartsWith t "image/" = false → t ≠ "application/pdf" →
      jsStartsWith t "video/" = false → bucketFor t = "uploads/others") ∧
    genName now orig = toString now ++ "-" ++ collapseWs orig ∧
    (∀ c ∈ (collapseWs orig).data, isJsWhitespace c = false) ∧
    ((∀ c ∈ orig.data, isJsWhitespace c = false) → collapseWs orig = orig) := by
  refine ⟨?_, ?_, ?_, ?_, rfl, ?_, ?_⟩
  · intro h; simp [bucketFor, h]
  · intro h; subst h; decide
  · intro hv
    have himg : jsStartsWith t "image/" = false := by
      by_contra hi
      rw [Bool.not_eq_false] at hi
      have ha : listIsPre ('i' :: "mage/".data) t.data = true := hi
      have hb : listIsPre ('v' :: "ideo/".data) t.data = true := hv
      exact absurd (listIsPre_head ha hb) (by decide)
    have hpdf : (t == "application/pdf") = false := by
      by_contra hp
      rw [Bool.not_eq_false, beq_iff_eq] at hp
      subst hp
      exact absurd hv (by decide)
    simp [bucketFor, himg, hpdf, hv]
  · intro h1 h2 h3
    simp [bucketFor, h1, h2, h3]
  · exact collapseGo_no_ws false orig.data
  · intro h
    simp only [collapseWs, collapseGo_id false orig.data h]

theorem c6_classifier_and_naming_witness :
    bucketFor "image/png" = "uploads/images" ∧
    bucketFor "application/pdf" = "uploads/pdfs" ∧
    bucketFor "video/mp4" = "uploads/videos" ∧
    bucketFor "text/plain" = "uploads/others" ∧
    genName 5 "a  b.png" = "5-a_b.png" := by
  refine ⟨?_, ?_, ?_, ?_, ?_⟩
  · exact (c6_classifier_and_naming "image/png" 0 "").1 (by decide)
  · exact (c6_classifier_and_naming "application/pdf" 0 "").2.1 rfl
  · exact (c6_classifier_and_naming "video/mp4" 0 "").2.2.1 (by decide)
  · exact (c6_classifier_and_naming "text/plain" 0 "").2.2.2.1 (by decide) (by decide) (by decide)
  · rw [(c6_classifier_and_naming "x" 5 "a  b.png").2.2.2.2.1]
    decide

/-- C8: the stale-file reclaimer is total over its input and idempotent: a
null or absent (falsy) path does nothing; a path whose resolved target is
missing from the backend raises no error and changes nothing; a path is only
ever removed when it is the resolved target and that target exists; and the
reclaimer acts on the storage backend alone, so no persisted record changes. -/
theorem c8_reclaimer_idempotent_total (fs : List String) (p : String) (o : Option String) :
    deleteOldFile none fs = fs ∧
    deleteOldFile (some "") fs = fs ∧
    (resolveStored p ∉ fs → deleteOldFile (some p) fs = fs) ∧
    deleteOldFile o (deleteOldFile o fs) = deleteOldFile o fs ∧
    (∀ x ∈ fs, x ∉ deleteOldFile (some p) fs →
      x = resolveStored p ∧ resolveStored p ∈ fs) := by
  refine ⟨deleteOldFile_falsy rfl, deleteOldFile_falsy (by decide), ?_, ?_, ?_⟩
  · intro h
    exact deleteOldFile_no_target h
  · by_cases ht : truthy o = true
    · exact deleteOldFile_no_target (target_not_mem_deleteOldFile ht)
    · rw [deleteOldFile_falsy (Bool.eq_false_iff.mpr ht),
        deleteOldFile_falsy (Bool.eq_false_iff.mpr ht)]
  · intro x hx hnot
    have h := deleteOldFile_remove_cases hx hnot
    refine ⟨h.2, ?_⟩
    rw [h.2] at hx
    exact hx

theorem c8_reclaimer_idempotent_total_witness :
    deleteOldFile (some "/uploads/images/b.png") ["uploads/images/a.png"]
      = ["uploads/images/a.png"] ∧
    ("uploads/images/a.png" = resolveStored "/uploads/images/a.png" ∧
      resolveStored "/uploads/images/a.png" ∈ ["uploads/images/a.png"]) := by
  refine ⟨?_, ?_⟩
  · exact (c8_reclaimer_idempotent_total ["uploads/images/a.png"]
      "/uploads/images/b.png" none).2.2.1 (by decide)
  · exact (c8_reclaimer_idempotent_total ["uploads/images/a.png"]
      "/uploads/images/a.png" none).2.2.2.2 "uploads/images/a.png" (by decide) (by decide)

/-- C3: an add-education or add-experience submission in which some entry is
missing one of its four required fields fails with HTTP 400 and leaves the
whole state — in particular the callers existing entries of that kind —
untouched: validation of every entry is decided before any deletion, so a
rejected submission causes no partial insert and no data loss. -/
theorem c3_validation_before_deletion (uid uidx : Nat) (st stx : St)
    (be : EduBody) (bx : ExpBody) (le : List EduIn) (lx : List ExpIn)
    (hne : normalizeEdu be = some le)
    (hbe : ∃ e ∈ le, e.degreeName = none ∨ e.collegeName = none ∨
      e.fromYear = none ∨ e.toYear = none)
    (hnx : normalizeExp bx = some lx)
    (hbx : ∃ e ∈ lx, e.designation = none ∨ e.companyName = none ∨
      e.fromTime = none ∨ e.toTime = none) :
    addEducation uid be st = (400, [], st) ∧ addExperience uidx bx stx = (400, [], stx) := by
  constructor
  · obtain ⟨e, he, hbad⟩ := hbe
    have hv : eduValid (stampEdu uid e) = false := by
      rcases hbad with h | h | h | h <;> simp [eduValid, stampEdu, truthy, h]
    have hall : (le.map (stampEdu uid)).all eduValid = false := by
      rw [List.all_eq_false]
      exact ⟨stampEdu uid e, List.mem_map_of_mem _ he, by simp [hv]⟩
    simp [addEducation, hne, hall]
  · obtain ⟨e, he, hbad⟩ := hbx
    have hv : expValid (stampExp uidx e) = false := by
      rcases hbad with h | h | h | h <;> simp [expValid, stampExp, truthy, h]
    have hall : (lx.map (stampExp uidx)).all expValid = false := by
      rw [List.all_eq_false]
      exact ⟨stampExp uidx e, List.mem_map_of_mem _ he, by simp [hv]⟩
    simp [addExperience, hnx, hall]

theorem c3_validation_before_deletion_witness :
    addEducation 1 (EduBody.single ⟨none, some "X", some "2018", some "2022"⟩)
      { fs := [], profiles := [], users := [],
        educations := [⟨1, some "BSc", some "X", some "2018", some "2022"⟩],
        experiences := [] }
      = (400, [],
        { fs := [], profiles := [], users := [],
          educations := [⟨1, some "BSc", some "X", some "2018", some "2022"⟩],
          experiences := [] }) ∧
    addExperience 2 (ExpBody.arr [⟨some "Dev", none, some "2020", some "2021"⟩])
      { fs := [], profiles := [], users := [], educations := [],
        experiences := [⟨2, some "Dev", some "Acme", some "2019", some "2020"⟩] }
      = (400, [],
        { fs := [], profiles := [], users := [], educations := [],
          experiences := [⟨2, some "Dev", some "Acme", some "2019", some "2020"⟩] }) := by
  exact c3_validation_before_deletion 1 2 _ _ _ _ _ _ rfl
    (by decide) rfl (by decide)

/-- C7: a valid education submission followed by the unscoped listing yields
exactly the submitted entries stamped with the callers id, together with the
other owners entries and nothing from a prior submission by the same caller:
the delete step removes only entries owned by the caller and the listing
returns every persisted entry unfiltered. -/
theorem c7_education_roundtrip (uid : Nat) (st : St) (b : EduBody) (l : List EduIn)
    (hn : normalizeEdu b = some l)
    (hv : (l.map (stampEdu uid)).all eduValid = true) :
    (addEducation uid b st).1 = 200 ∧
    (addEducation uid b st).2.1 = l.map (stampEdu uid) ∧
    getEducation (addEducation uid b st).2.2 =
      st.educations.filter (fun e => !(e.userId == uid)) ++ l.map (stampEdu uid) ∧
    (getEducation (addEducation uid b st).2.2).filter (fun e => e.userId == uid) =
      l.map (stampEdu uid) ∧
    (getEducation (addEducation uid b st).2.2).filter (fun e => !(e.userId == uid)) =
      st.educations.filter (fun e => !(e.userId == uid)) := by
  have hstamp : ∀ a ∈ l.map (stampEdu uid), (a.userId == uid) = true := by
    intro a ha
    rcases List.mem_map.mp ha with ⟨e, -, rfl⟩
    simp [stampEdu]
  have hmain : getEducation (addEducation uid b st).2.2 =
      st.educations.filter (fun e => !(e.userId == uid)) ++ l.map (stampEdu uid) := by
    simp [addEducation, hn, hv, getEducation]
  have hfil1 : (st.educations.filter (fun e => !(e.userId == uid))).filter
      (fun e => (e.userId == uid)) = [] := by
    rw [List.filter_eq_nil_iff]
    intro a ha
    have h := List.of_mem_filter ha
    simp at h
    simp [h]
  have hfil2 : (l.map (stampEdu uid)).filter (fun e => !(e.userId == uid)) = [] := by
    rw [List.filter_eq_nil_iff]
    intro a ha
    simp [hstamp a ha]
  refine ⟨by simp [addEducation, hn, hv], by simp [addEducation, hn, hv], hmain, ?_, ?_⟩
  · rw [hmain, List.filter_append, hfil1, List.filter_eq_self.mpr hstamp, List.nil_append]
  · rw [hmain, List.filter_append, hfil2, List.append_nil, List.filter_filter]
    congr 1
    funext a
    rcases h : (a.userId == uid) <;> simp [h]

theorem c7_education_roundtrip_witness :
    (addEducation 1 (EduBody.arr [⟨some "BSc", some "X", some "2018", some "2022"⟩])
      { fs := [], profiles := [], users := [],
        educations := [⟨1, some "Old", some "Y", some "2010", some "2014"⟩,
                       ⟨2, some "MSc", some "Z", some "2017", some "2019"⟩],
        experiences := [] }).1 = 200 ∧
    (getEducation (addEducation 1
      (EduBody.arr [⟨some "BSc", some "X", some "2018", some "2022"⟩])
      { fs := [], profiles := [], users := [],
        educations := [⟨1, some "Old", some "Y", some "2010", some "2014"⟩,
                       ⟨2, some "MSc", some "Z", some "2017", some "2019"⟩],
        experiences := [] }).2.2).filter (fun e => e.userId == 1) =
      [⟨1, some "BSc", some "X", some "2018", some "2022"⟩] ∧
    (getEducation (addEducation 1
      (EduBody.arr [⟨some "BSc", some "X", some "2018", some "2022"⟩])
      { fs := [], profiles := [], users := [],
        educations := [⟨1, some "Old", some "Y", some "2010", some "2014"⟩,
                       ⟨2, some "MSc", some "Z", some "2017", some "2019"⟩],
        experiences := [] }).2.2).filter (fun e => !(e.userId == 1)) =
      [⟨2, some "MSc", some "Z", some "2017", some "2019"⟩] := by
  have h := c7_education_roundtrip 1
    { fs := [], profiles := [], users := [],
      educations := [⟨1, some "Old", some "Y", some "2010", some "2014"⟩,
                     ⟨2, some "MSc", some "Z", some "2017", some "2019"⟩],
      experiences := [] }
    (EduBody.arr [⟨some "BSc", some "X", some "2018", some "2022"⟩])
    [⟨some "BSc", some "X", some "2018", some "2022"⟩] rfl (by decide)
  refine ⟨h.1, ?_, ?_⟩
  · rw [h.2.2.2.1]; decide
  · rw [h.2.2.2.2]; decide

theorem truthy_iff_exists {o : Option String} : truthy o = true ↔ ∃ s, o = some s ∧ s ≠ "" := by
  cases o <;> simp [truthy]

theorem updateProfile_found (req : UpdateReq) (st : St) (uid : Nat) (profile : Profile)
    (hu : req.user = some uid) (hn : truthy req.name = true)
    (hp : st.profiles.find? (fun p => p.userId == uid) = some profile) :
    updateProfile req st =
      (200, some (mergedProfile profile (req.name.getD "") (fileField req.profilePic)
          (fileField req.profilePic2) (fileField req.resumePdf) (fileField req.video)
          req.aboutText),
        { st with
          fs := reclaimIf (fileField req.video) profile.video
            (reclaimIf (fileField req.resumePdf) profile.pdf
              (reclaimIf (fileField req.profilePic2) profile.profilePic2
                (reclaimIf (fileField req.profilePic) profile.profilePic
                  (multerWrite req st.fs))))
          profiles := st.profiles.map (fun q =>
            if q.userId == uid then mergedProfile profile (req.name.getD "")
              (fileField req.profilePic) (fileField req.profilePic2)
              (fileField req.resumePdf) (fileField req.video) req.aboutText else q)
          users := saveUser st.users uid (req.name.getD "") req }) := by
  simp [updateProfile, hu, hn, hp]

theorem updateProfile_create (req : UpdateReq) (st : St) (uid : Nat)
    (hu : req.user = some uid) (hn : truthy req.name = true)
    (hp : st.profiles.find? (fun p => p.userId == uid) = none) :
    updateProfile req st =
      (200, some (freshProfile uid (req.name.getD "") (fileField req.profilePic)
          (fileField req.profilePic2) (fileField req.resumePdf) (fileField req.video)
          req.aboutText),
        { st with
          fs := multerWrite req st.fs
          profiles := st.profiles ++ [freshProfile uid (req.name.getD "")
            (fileField req.profilePic) (fileField req.profilePic2)
            (fileField req.resumePdf) (fileField req.video) req.aboutText]
          users := saveUser st.users uid (req.name.getD "") req }) := by
  simp [updateProfile, hu, hn, hp]

theorem saveUser_found (users : List User) (uid : Nat) (name : String) (req : UpdateReq)
    (u : User) (hf : users.find? (fun v => v.id == uid) = some u) :
    saveUser users uid name req =
      users.map (fun v => if v.id == uid then mergedUser v name req else v) := by
  simp [saveUser, hf]

theorem updateProfile_status_ok (req : UpdateReq) (st : St) (uid : Nat)
    (hu : req.user = some uid) (hn : truthy req.name = true) :
    (updateProfile req st).1 = 200 := by
  cases hfind : st.profiles.find? (fun p => p.userId == uid) with
  | none => rw [updateProfile_create req st uid hu hn hfind]
  | some profile => rw [updateProfile_found req st uid profile hu hn hfind]

theorem updateProfile_users (req : UpdateReq) (st : St) (uid : Nat)
    (hu : req.user = some uid) (hn : truthy req.name = true) :
    (updateProfile req st).2.2.users = saveUser st.users uid (req.name.getD "") req := by
  cases hfind : st.profiles.find? (fun p => p.userId == uid) with
  | none => rw [updateProfile_create req st uid hu hn hfind]
  | some profile => rw [updateProfile_found req st uid profile hu hn hfind]

theorem mergedUser_name {u : User} {name : String} {req : UpdateReq} (h : name ≠ "") :
    (mergedUser u name req).name = some name := by
  simp [mergedUser, jsOr, truthy, h]

/-- C4: a valid profile update on an existing profile with no files attached
returns 200 and the persisted profile keeps all four path fields exactly as
they were: never nulled out and never overwritten. -/
theorem c4_no_files_preserves_paths (req : UpdateReq) (st : St) (uid : Nat) (profile : Profile)
    (hu : req.user = some uid) (hn : truthy req.name = true)
    (h1 : req.profilePic = none) (h2 : req.profilePic2 = none)
    (h3 : req.resumePdf = none) (h4 : req.video = none)
    (hp : st.profiles.find? (fun p => p.userId == uid) = some profile) :
    (updateProfile req st).1 = 200 ∧
    ∀ p, (updateProfile req st).2.1 = some p →
      p.profilePic = profile.profilePic ∧ p.profilePic2 = profile.profilePic2 ∧
      p.pdf = profile.pdf ∧ p.video = profile.video ∧
      p ∈ (updateProfile req st).2.2.profiles := by
  rw [updateProfile_found req st uid profile hu hn hp]
  refine ⟨rfl, ?_⟩
  intro p hp'
  have hep : p = mergedProfile profile (req.name.getD "") (fileField req.profilePic)
      (fileField req.profilePic2) (fileField req.resumePdf) (fileField req.video)
      req.aboutText := by
    simpa using hp'.symm
  subst hep
  have hmem : profile ∈ st.profiles := List.mem_of_find?_eq_some hp
  have hid : (profile.userId == uid) = true := by
    have h := List.find?_some hp
    simpa using h
  refine ⟨?_, ?_, ?_, ?_, ?_⟩
  · simp [mergedProfile, h1, fileField, dbPath, truthy]
  · simp [mergedProfile, h2, fileField, dbPath, truthy]
  · simp [mergedProfile, h3, fileField, dbPath, truthy]
  · simp [mergedProfile, h4, fileField, dbPath, truthy]
  · have himg := List.mem_map_of_mem (fun q =>
      if q.userId == uid then mergedProfile profile (req.name.getD "")
        (fileField req.profilePic) (fileField req.profilePic2)
        (fileField req.resumePdf) (fileField req.video) req.aboutText else q) hmem
    simpa [hid] using himg

theorem c4_no_files_preserves_paths_witness :
    (updateProfile
      { user := some 1, name := some "New Name", phoneNumber := none, degree := none,
        birthday := none, address := none, experience := none, aboutText := some "hi",
        profilePic := none, profilePic2 := none, resumePdf := none, video := none }
      { fs := ["uploads/images/1-a.png"],
        profiles := [⟨1, "Old", some "/uploads/images/1-a.png", none, some "/uploads/pdfs/1-r.pdf", none, none⟩],
        users := [], educations := [], experiences := [] }).1 = 200 ∧
    ∀ p, (updateProfile
      { user := some 1, name := some "New Name", phoneNumber := none, degree := none,
        birthday := none, address := none, experience := none, aboutText := some "hi",
        profilePic := none, profilePic2 := none, resumePdf := none, video := none }
      { fs := ["uploads/images/1-a.png"],
        profiles := [⟨1, "Old", some "/uploads/images/1-a.png", none, some "/uploads/pdfs/1-r.pdf", none, none⟩],
        users := [], educations := [], experiences := [] }).2.1 = some p →
      p.profilePic = some "/uploads/images/1-a.png" ∧ p.pdf = some "/uploads/pdfs/1-r.pdf" := by
  have h := c4_no_files_preserves_paths
    { user := some 1, name := some "New Name", phoneNumber := none, degree := none,
      birthday := none, address := none, experience := none, aboutText := some "hi",
      profilePic := none, profilePic2 := none, resumePdf := none, video := none }
    { fs := ["uploads/images/1-a.png"],
      profiles := [⟨1, "Old", some "/uploads/images/1-a.png", none, some "/uploads/pdfs/1-r.pdf", none, none⟩],
      users := [], educations := [], experiences := [] }
    1 ⟨1, "Old", some "/uploads/images/1-a.png", none, some "/uploads/pdfs/1-r.pdf", none, none⟩
    rfl (by decide) rfl rfl rfl rfl (by decide)
  exact ⟨h.1, fun p hp => ⟨(h.2 p hp).1, (h.2 p hp).2.2.1⟩⟩

/-- C5 counterexample: an authenticated update-profile request with an absent
name but an attached picture returns 400, yet the upload middleware has
already written the attached file to the storage backend, refuting the claim
that no file is stored. -/
theorem c5_no_writes_counterexample :
    (updateProfile
      { user := some 1, name := none, phoneNumber := none, degree := none,
        birthday := none, address := none, experience := none, aboutText := none,
        profilePic := some ⟨"image/png", "a b.png", 3⟩, profilePic2 := none,
        resumePdf := none, video := none }
      { fs := [], profiles := [], users := [], educations := [], experiences := [] }).1
      = 400 ∧
    (updateProfile
      { user := some 1, name := none, phoneNumber := none, degree := none,
        birthday := none, address := none, experience := none, aboutText := none,
        profilePic := some ⟨"image/png", "a b.png", 3⟩, profilePic2 := none,
        resumePdf := none, video := none }
      { fs := [], profiles := [], users := [], educations := [], experiences := [] }).2.2.fs
      = ["uploads/images/3-a_b.png"] := by
  decide

/-- C5 amended: an authenticated update-profile request with an empty or
absent name fails with HTTP 400 and performs no database writes — no profile
is created or saved, no user record is modified — and deletes nothing from
storage; however, any files attached to the request have already been written
to the storage backend by the upload middleware before validation runs. -/
theorem c5_amended_no_db_writes (req : UpdateReq) (st : St) (uid : Nat)
    (hu : req.user = some uid) (hn : truthy req.name = false) :
    (updateProfile req st).1 = 400 ∧
    (updateProfile req st).2.1 = none ∧
    (updateProfile req st).2.2.profiles = st.profiles ∧
    (updateProfile req st).2.2.users = st.users ∧
    (updateProfile req st).2.2.educations = st.educations ∧
    (updateProfile req st).2.2.experiences = st.experiences ∧
    (updateProfile req st).2.2.fs = multerWrite req st.fs ∧
    (∀ x ∈ st.fs, x ∈ (updateProfile req st).2.2.fs) := by
  have hform : updateProfile req st = (400, none, { st with fs := multerWrite req st.fs }) := by
    simp [updateProfile, hu, hn]
  rw [hform]
  exact ⟨rfl, rfl, rfl, rfl, rfl, rfl, rfl, fun x hx => mem_multerWrite hx⟩

theorem c5_amended_no_db_writes_witness :
    (updateProfile
      { user := some 1, name := some "", phoneNumber := none, degree := none,
        birthday := none, address := none, experience := none, aboutText := none,
        profilePic := none, profilePic2 := none, resumePdf := none,
        video := some ⟨"video/mp4", "v.mp4", 9⟩ }
      { fs := ["uploads/pdfs/1-r.pdf"],
        profiles := [⟨1, "Old", none, none, none, none, none⟩],
        users := [], educations := [], experiences := [] }).1 = 400 ∧
    (updateProfile
      { user := some 1, name := some "", phoneNumber := none, degree := none,
        birthday := none, address := none, experience := none, aboutText := none,
        profilePic := none, profilePic2 := none, resumePdf := none,
        video := some ⟨"video/mp4", "v.mp4", 9⟩ }
      { fs := ["uploads/pdfs/1-r.pdf"],
        profiles := [⟨1, "Old", none, none, none, none, none⟩],
        users := [], educations := [], experiences := [] }).2.2.profiles
      = [⟨1, "Old", none, none, none, none, none⟩] := by
  have h := c5_amended_no_db_writes
    { user := some 1, name := some "", phoneNumber := none, degree := none,
      birthday := none, address := none, experience := none, aboutText := none,
      profilePic := none, profilePic2 := none, resumePdf := none,
      video := some ⟨"video/mp4", "v.mp4", 9⟩ }
    { fs := ["uploads/pdfs/1-r.pdf"],
      profiles := [⟨1, "Old", none, none, none, none, none⟩],
      users := [], educations := [], experiences := [] }
    1 rfl (by decide)
  exact ⟨h.1, h.2.2.1⟩

/-- C9: on every authenticated, validly named update-profile call where a
user record exists for the caller, the persisted user record has its name
field overwritten with the incoming validated non-empty name, in addition to
the five user-owned fields the spec lists. -/
theorem c9_user_name_overwritten (req : UpdateReq) (st : St) (uid : Nat) (u : User)
    (hu : req.user = some uid) (hn : truthy req.name = true)
    (hfu : st.users.find? (fun v => v.id == uid) = some u) :
    (updateProfile req st).1 = 200 ∧
    (∃ v ∈ (updateProfile req st).2.2.users, v.id = uid) ∧
    (∀ v ∈ (updateProfile req st).2.2.users, v.id = uid → v.name = req.name) := by
  obtain ⟨s, hs, hne⟩ := truthy_iff_exists.mp hn
  have hgd : req.name.getD "" = s := by rw [hs]; rfl
  have hid : u.id = uid := by simpa using List.find?_some hfu
  have husers := updateProfile_users req st uid hu hn
  rw [saveUser_found st.users uid (req.name.getD "") req u hfu] at husers
  refine ⟨updateProfile_status_ok req st uid hu hn, ?_, ?_⟩
  · refine ⟨mergedUser u (req.name.getD "") req, ?_, by simp [mergedUser, hid]⟩
    rw [husers]
    have hmm := List.mem_map_of_mem
      (fun v => if v.id == uid then mergedUser v (req.name.getD "") req else v)
      (List.mem_of_find?_eq_some hfu)
    simpa [hid] using hmm
  · intro v hv hvid
    rw [husers] at hv
    rcases List.mem_map.mp hv with ⟨w, hw, rfl⟩
    by_cases hwid : (w.id == uid) = true
    · simp only [hwid, if_true]
      rw [mergedUser_name (hgd ▸ hne), hgd, hs]
    · rw [Bool.not_eq_true] at hwid
      simp only [hwid, Bool.false_eq_true, if_false] at hvid
      exact absurd (by simp [hvid] : (w.id == uid) = true) (by simp [hwid])

theorem c9_user_name_overwritten_witness :
    (updateProfile
      { user := some 1, name := some "New", phoneNumber := none, degree := none,
        birthday := none, address := none, experience := none, aboutText := none,
        profilePic := none, profilePic2 := none, resumePdf := none, video := none }
      { fs := [], profiles := [],
        users := [⟨1, "me@example.com", some "Old", none, none, none, none, none⟩],
        educations := [], experiences := [] }).1 = 200 ∧
    (∀ v ∈ (updateProfile
      { user := some 1, name := some "New", phoneNumber := none, degree := none,
        birthday := none, address := none, experience := none, aboutText := none,
        profilePic := none, profilePic2 := none, resumePdf := none, video := none }
      { fs := [], profiles := [],
        users := [⟨1, "me@example.com", some "Old", none, none, none, none, none⟩],
        educations := [], experiences := [] }).2.2.users, v.id = 1 → v.name = some "New") := by
  have h := c9_user_name_overwritten
    { user := some 1, name := some "New", phoneNumber := none, degree := none,
      birthday := none, address := none, experience := none, aboutText := none,
      profilePic := none, profilePic2 := none, resumePdf := none, video := none }
    { fs := [], profiles := [],
      users := [⟨1, "me@example.com", some "Old", none, none, none, none, none⟩],
      educations := [], experiences := [] }
    1 ⟨1, "me@example.com", some "Old", none, none, none, none, none⟩
    rfl (by decide) rfl
  exact ⟨h.1, h.2.2⟩

/-- C10: the merge rule for aboutText and the five user-owned fields is
truthiness based, not presence based: an incoming value that is present but
falsy (the empty string) leaves the existing stored value in place, both on
the profile record and in the pointwise user merge, so a client cannot clear
aboutText or any user-owned field through this operation. -/
theorem c10_falsy_merge_preserves (req : UpdateReq) (st : St) (uid : Nat)
    (profile : Profile) (u : User)
    (hu : req.user = some uid) (hn : truthy req.name = true)
    (hp : st.profiles.find? (fun p => p.userId == uid) = some profile)
    (hfu : st.users.find? (fun v => v.id == uid) = some u) :
    (updateProfile req st).1 = 200 ∧
    (req.aboutText = some "" → ∀ p, (updateProfile req st).2.1 = some p →
      p.aboutText = profile.aboutText) ∧
    (updateProfile req st).2.2.users =
      st.users.map (fun v => if v.id == uid then mergedUser v (req.name.getD "") req else v) ∧
    (∀ w : User,
      (req.phoneNumber = some "" →
        (mergedUser w (req.name.getD "") req).phoneNumber = w.phoneNumber) ∧
      (req.degree = some "" → (mergedUser w (req.name.getD "") req).degree = w.degree) ∧
      (req.birthday = some "" → (mergedUser w (req.name.getD "") req).birthday = w.birthday) ∧
      (req.address = some "" → (mergedUser w (req.name.getD "") req).address = w.address) ∧
      (req.experience = some "" →
        (mergedUser w (req.name.getD "") req).experience = w.experience)) := by
  refine ⟨updateProfile_status_ok req st uid hu hn, ?_, ?_, ?_⟩
  · intro hab p hp'
    rw [updateProfile_found req st uid profile hu hn hp] at hp'
    have hep : p = mergedProfile profile (req.name.getD "") (fileField req.profilePic)
        (fileField req.profilePic2) (fileField req.resumePdf) (fileField req.video)
        req.aboutText := by simpa using hp'.symm
    subst hep
    simp [mergedProfile, jsOr, hab, truthy]
  · rw [updateProfile_users req st uid hu hn,
      saveUser_found st.users uid (req.name.getD "") req u hfu]
  · intro w
    refine ⟨?_, ?_, ?_, ?_, ?_⟩ <;> intro h <;> simp [mergedUser, jsOr, h, truthy]

theorem c10_falsy_merge_preserves_witness :
    (∀ p, (updateProfile
      { user := some 1, name := some "N", phoneNumber := some "", degree := none,
        birthday := none, address := none, experience := none, aboutText := some "",
        profilePic := none, profilePic2 := none, resumePdf := none, video := none }
      { fs := [], profiles := [⟨1, "Old", none, none, none, none, some "keep me"⟩],
        users := [⟨1, "me@example.com", some "Old", some "123", none, none, none, none⟩],
        educations := [], experiences := [] }).2.1 = some p →
      p.aboutText = some "keep me") ∧
    (∀ w : User, (mergedUser w "N"
      { user := some 1, name := some "N", phoneNumber := some "", degree := none,
        birthday := none, address := none, experience := none, aboutText := some "",
        profilePic := none, profilePic2 := none, resumePdf := none, video := none
        }).phoneNumber = w.phoneNumber) := by
  have h := c10_falsy_merge_preserves
    { user := some 1, name := some "N", phoneNumber := some "", degree := none,
      birthday := none, address := none, experience := none, aboutText := some "",
      profilePic := none, profilePic2 := none, resumePdf := none, video := none }
    { fs := [], profiles := [⟨1, "Old", none, none, none, none, some "keep me"⟩],
      users := [⟨1, "me@example.com", some "Old", some "123", none, none, none, none⟩],
      educations := [], experiences := [] }
    1 ⟨1, "Old", none, none, none, none, some "keep me"⟩
    ⟨1, "me@example.com", some "Old", some "123", none, none, none, none⟩
    rfl (by decide) rfl rfl
  exact ⟨h.2.1 rfl, fun w => (h.2.2.2 w).1 rfl⟩

theorem resolveStored_cons (p : String) (rest : List Char) (h : p.data = '/' :: rest) :
    resolveStored p = ⟨rest⟩ := by
  unfold resolveStored
  rw [h]
  rfl

theorem resolvedTarget_images (n : String) :
    resolvedTarget (some ("/uploads/images/" ++ n)) = "uploads/images/" ++ n := by
  show resolveStored ("/uploads/images/" ++ n) = "uploads/images/" ++ n
  rw [resolveStored_cons ("/uploads/images/" ++ n) ("uploads/images/".data ++ n.data)
    (by rw [String.data_append]; rfl)]
  rfl

theorem resolvedTarget_pdfs (n : String) :
    resolvedTarget (some ("/uploads/pdfs/" ++ n)) = "uploads/pdfs/" ++ n := by
  show resolveStored ("/uploads/pdfs/" ++ n) = "uploads/pdfs/" ++ n
  rw [resolveStored_cons ("/uploads/pdfs/" ++ n) ("uploads/pdfs/".data ++ n.data)
    (by rw [String.data_append]; rfl)]
  rfl

theorem resolvedTarget_videos (n : String) :
    resolvedTarget (some ("/uploads/videos/" ++ n)) = "uploads/videos/" ++ n := by
  show resolveStored ("/uploads/videos/" ++ n) = "uploads/videos/" ++ n
  rw [resolveStored_cons ("/uploads/videos/" ++ n) ("uploads/videos/".data ++ n.data)
    (by rw [String.data_append]; rfl)]
  rfl

theorem bucketFor_image {t : String} (h : jsStartsWith t "image/" = true) :
    bucketFor t = "uploads/images" := by
  simp [bucketFor, h]

theorem bucketFor_video {t : String} (h : jsStartsWith t "video/" = true) :
    bucketFor t = "uploads/videos" := by
  have himg : jsStartsWith t "image/" = false := by
    by_contra hi
    rw [Bool.not_eq_false] at hi
    have ha : listIsPre ('i' :: "mage/".data) t.data = true := hi
    have hb : listIsPre ('v' :: "ideo/".data) t.data = true := h
    exact absurd (listIsPre_head ha hb) (by decide)
  have hpdf : (t == "application/pdf") = false := by
    by_contra hq
    rw [Bool.not_eq_false, beq_iff_eq] at hq
    subst hq
    exact absurd h (by decide)
  simp [bucketFor, himg, hpdf, h]

theorem storedLocation_image {f : UploadedFile} (h : jsStartsWith f.mimetype "image/" = true) :
    storedLocation f = "uploads/images/" ++ storedFilename f := by
  unfold storedLocation
  rw [bucketFor_image h]
  rfl

theorem storedLocation_pdf {f : UploadedFile} (h : f.mimetype = "application/pdf") :
    storedLocation f = "uploads/pdfs/" ++ storedFilename f := by
  unfold storedLocation
  rw [h]
  rfl

theorem storedLocation_video {f : UploadedFile} (h : jsStartsWith f.mimetype "video/" = true) :
    storedLocation f = "uploads/videos/" ++ storedFilename f := by
  unfold storedLocation
  rw [bucketFor_video h]
  rfl

theorem dbPath_some (dir : String) (f : UploadedFile) (old : Option String) :
    dbPath dir (fileField (some f)) old = some (dir ++ storedFilename f) := by
  rw [fileField_some]
  simp [dbPath, truthy, storedFilename_ne_empty f]

theorem pic_mem_multerWrite {req : UpdateReq} {fs : List String} {f : UploadedFile}
    (h : req.profilePic = some f) : storedLocation f ∈ multerWrite req fs := by
  unfold multerWrite
  apply mem_optWrite
  apply mem_optWrite
  apply mem_optWrite
  rw [h]
  exact self_mem_optWrite

theorem pic2_mem_multerWrite {req : UpdateReq} {fs : List String} {f : UploadedFile}
    (h : req.profilePic2 = some f) : storedLocation f ∈ multerWrite req fs := by
  unfold multerWrite
  apply mem_optWrite
  apply mem_optWrite
  rw [h]
  exact self_mem_optWrite

theorem resume_mem_multerWrite {req : UpdateReq} {fs : List String} {f : UploadedFile}
    (h : req.resumePdf = some f) : storedLocation f ∈ multerWrite req fs := by
  unfold multerWrite
  apply mem_optWrite
  rw [h]
  exact self_mem_optWrite

theorem video_mem_multerWrite {req : UpdateReq} {fs : List String} {f : UploadedFile}
    (h : req.video = some f) : storedLocation f ∈ multerWrite req fs := by
  unfold multerWrite
  rw [h]
  exact self_mem_optWrite

theorem mem_reclaim4 {x : String} {pn p2n rn vn o1 o2 o3 o4 : Option String}
    {fs : List String} (hx : x ∈ fs)
    (h1 : x ≠ resolvedTarget o1) (h2 : x ≠ resolvedTarget o2)
    (h3 : x ≠ resolvedTarget o3) (h4 : x ≠ resolvedTarget o4) :
    x ∈ reclaimIf vn o4 (reclaimIf rn o3 (reclaimIf p2n o2 (reclaimIf pn o1 fs))) :=
  mem_reclaimIf (mem_reclaimIf (mem_reclaimIf (mem_reclaimIf hx h1) h2) h3) h4

theorem isSome_of_truthy_fileField {g : Option UploadedFile}
    (h : truthy (fileField g) = true) : g.isSome = true := by
  cases g
  · simp [fileField, truthy] at h
  · rfl

/-- C1 counterexample: a create-profile call whose profilePic part declares
media type application/pdf returns 200 and persists
profilePic = /uploads/images/5-x.png, but the classifier-store wrote the
payload to uploads/pdfs/5-x.png, so the persisted non-null path field does
not reference a file that exists on the storage backend: the claim fails for
media types that do not match the slots hardcoded bucket. -/
theorem c1_path_invariant_counterexample :
    (updateProfile
      { user := some 1, name := some "Me", phoneNumber := none, degree := none,
        birthday := none, address := none, experience := none, aboutText := none,
        profilePic := some ⟨"application/pdf", "x.png", 5⟩, profilePic2 := none,
        resumePdf := none, video := none }
      { fs := [], profiles := [], users := [], educations := [], experiences := [] }).1
      = 200 ∧
    (updateProfile
      { user := some 1, name := some "Me", phoneNumber := none, degree := none,
        birthday := none, address := none, experience := none, aboutText := none,
        profilePic := some ⟨"application/pdf", "x.png", 5⟩, profilePic2 := none,
        resumePdf := none, video := none }
      { fs := [], profiles := [], users := [], educations := [], experiences := [] }).2.1
      = some ⟨1, "Me", some "/uploads/images/5-x.png", none, none, none, none⟩ ∧
    (updateProfile
      { user := some 1, name := some "Me", phoneNumber := none, degree := none,
        birthday := none, address := none, experience := none, aboutText := none,
        profilePic := some ⟨"application/pdf", "x.png", 5⟩, profilePic2 := none,
        resumePdf := none, video := none }
      { fs := [], profiles := [], users := [], educations := [], experiences := [] }).2.2.fs
      = ["uploads/pdfs/5-x.png"] ∧
    resolvedTarget (some "/uploads/images/5-x.png") ∉ ["uploads/pdfs/5-x.png"] := by
  decide

/-- C1 amended: on every authenticated, validly named update-profile call in
which each uploaded payloads declared media type classifies to its slots
fixed bucket (image for the two picture slots, application/pdf for the
resume slot, video for the video slot), and in which no new uploads storage
location coincides with the resolved target of a path already stored on the
callers existing profile, every path field set by this call is non-null,
resolves to exactly the location where the classifier-store wrote that
payload, and that file exists on the storage backend when the call
completes. -/
theorem c1_path_invariant_amended (req : UpdateReq) (st : St) (uid : Nat)
    (hu : req.user = some uid) (hn : truthy req.name = true)
    (hm1 : ∀ f, req.profilePic = some f → jsStartsWith f.mimetype "image/" = true)
    (hm2 : ∀ f, req.profilePic2 = some f → jsStartsWith f.mimetype "image/" = true)
    (hm3 : ∀ f, req.resumePdf = some f → f.mimetype = "application/pdf")
    (hm4 : ∀ f, req.video = some f → jsStartsWith f.mimetype "video/" = true)
    (hfresh : ∀ p, st.profiles.find? (fun q => q.userId == uid) = some p →
      ∀ f, (req.profilePic = some f ∨ req.profilePic2 = some f ∨
            req.resumePdf = some f ∨ req.video = some f) →
        storedLocation f ≠ resolvedTarget p.profilePic ∧
        storedLocation f ≠ resolvedTarget p.profilePic2 ∧
        storedLocation f ≠ resolvedTarget p.pdf ∧
        storedLocation f ≠ resolvedTarget p.video) :
    (updateProfile req st).1 = 200 ∧
    ∀ p', (updateProfile req st).2.1 = some p' →
      (∀ f, req.profilePic = some f →
        p'.profilePic = some ("/uploads/images/" ++ storedFilename f) ∧
        resolvedTarget p'.profilePic = storedLocation f ∧
        resolvedTarget p'.profilePic ∈ (updateProfile req st).2.2.fs) ∧
      (∀ f, req.profilePic2 = some f →
        p'.profilePic2 = some ("/uploads/images/" ++ storedFilename f) ∧
        resolvedTarget p'.profilePic2 = storedLocation f ∧
        resolvedTarget p'.profilePic2 ∈ (updateProfile req st).2.2.fs) ∧
      (∀ f, req.resumePdf = some f →
        p'.pdf = some ("/uploads/pdfs/" ++ storedFilename f) ∧
        resolvedTarget p'.pdf = storedLocation f ∧
        resolvedTarget p'.pdf ∈ (updateProfile req st).2.2.fs) ∧
      (∀ f, req.video = some f →
        p'.video = some ("/uploads/videos/" ++ storedFilename f) ∧
        resolvedTarget p'.video = storedLocation f ∧
        resolvedTarget p'.video ∈ (updateProfile req st).2.2.fs) := by
  cases hfind : st.profiles.find? (fun q => q.userId == uid) with
  | none =>
    rw [updateProfile_create req st uid hu hn hfind]
    refine ⟨rfl, ?_⟩
    intro p' hp'
    have hep : p' = freshProfile uid (req.name.getD "") (fileField req.profilePic)
        (fileField req.profilePic2) (fileField req.resumePdf) (fileField req.video)
        req.aboutText := by simpa using hp'.symm
    subst hep
    refine ⟨?_, ?_, ?_, ?_⟩
    · intro f hf
      have hslot : (freshProfile uid (req.name.getD "") (fileField req.profilePic)
          (fileField req.profilePic2) (fileField req.resumePdf) (fileField req.video)
          req.aboutText).profilePic = some ("/uploads/images/" ++ storedFilename f) := by
        simp [freshProfile, hf, dbPath_some]
      refine ⟨hslot, ?_, ?_⟩
      · rw [hslot, resolvedTarget_images, storedLocation_image (hm1 f hf)]
      · rw [hslot, resolvedTarget_images]
        show "uploads/images/" ++ storedFilename f ∈ multerWrite req st.fs
        rw [← storedLocation_image (hm1 f hf)]
        exact pic_mem_multerWrite hf
    · intro f hf
      have hslot : (freshProfile uid (req.name.getD "") (fileField req.profilePic)
          (fileField req.profilePic2) (fileField req.resumePdf) (fileField req.video)
          req.aboutText).profilePic2 = some ("/uploads/images/" ++ storedFilename f) := by
        simp [freshProfile, hf, dbPath_some]
      refine ⟨hslot, ?_, ?_⟩
      · rw [hslot, resolvedTarget_images, storedLocation_image (hm2 f hf)]
      · rw [hslot, resolvedTarget_images]
        show "uploads/images/" ++ storedFilename f ∈ multerWrite req st.fs
        rw [← storedLocation_image (hm2 f hf)]
        exact pic2_mem_multerWrite hf
    · intro f hf
      have hslot : (freshProfile uid (req.name.getD "") (fileField req.profilePic)
          (fileField req.profilePic2) (fileField req.resumePdf) (fileField req.video)
          req.aboutText).pdf = some ("/uploads/pdfs/" ++ storedFilename f) := by
        simp [freshProfile, hf, dbPath_some]
      refine ⟨hslot, ?_, ?_⟩
      · rw [hslot, resolvedTarget_pdfs, storedLocation_pdf (hm3 f hf)]
      · rw [hslot, resolvedTarget_pdfs]
        show "uploads/pdfs/" ++ storedFilename f ∈ multerWrite req st.fs
        rw [← storedLocation_pdf (hm3 f hf)]
        exact resume_mem_multerWrite hf
    · intro f hf
      have hslot : (freshProfile uid (req.name.getD "") (fileField req.profilePic)
          (fileField req.profilePic2) (fileField req.resumePdf) (fileField req.video)
          req.aboutText).video = some ("/uploads/videos/" ++ storedFilename f) := by
        simp [freshProfile, hf, dbPath_some]
      refine ⟨hslot, ?_, ?_⟩
      · rw [hslot, resolvedTarget_videos, storedLocation_video (hm4 f hf)]
      · rw [hslot, resolvedTarget_videos]
        show "uploads/videos/" ++ storedFilename f ∈ multerWrite req st.fs
        rw [← storedLocation_video (hm4 f hf)]
        exact video_mem_multerWrite hf
  | some profile =>
    rw [updateProfile_found req st uid profile hu hn hfind]
    refine ⟨rfl, ?_⟩
    intro p' hp'
    have hep : p' = mergedProfile profile (req.name.getD "") (fileField req.profilePic)
        (fileField req.profilePic2) (fileField req.resumePdf) (fileField req.video)
        req.aboutText := by simpa using hp'.symm
    subst hep
    refine ⟨?_, ?_, ?_, ?_⟩
    · intro f hf
      have hfr := hfresh profile hfind f (Or.inl hf)
      have hslot : (mergedProfile profile (req.name.getD "") (fileField req.profilePic)
          (fileField req.profilePic2) (fileField req.resumePdf) (fileField req.video)
          req.aboutText).profilePic = some ("/uploads/images/" ++ storedFilename f) := by
        simp [mergedProfile, hf, dbPath_some]
      refine ⟨hslot, ?_, ?_⟩
      · rw [hslot, resolvedTarget_images, storedLocation_image (hm1 f hf)]
      · rw [hslot, resolvedTarget_images]
        show "uploads/images/" ++ storedFilename f ∈
          reclaimIf (fileField req.video) profile.video
            (reclaimIf (fileField req.resumePdf) profile.pdf
              (reclaimIf (fileField req.profilePic2) profile.profilePic2
                (reclaimIf (fileField req.profilePic) profile.profilePic
                  (multerWrite req st.fs))))
        rw [← storedLocation_image (hm1 f hf)]
        exact mem_reclaim4 (pic_mem_multerWrite hf) hfr.1 hfr.2.1 hfr.2.2.1 hfr.2.2.2
    · intro f hf
      have hfr := hfresh profile hfind f (Or.inr (Or.inl hf))
      have hslot : (mergedProfile profile (req.name.getD "") (fileField req.profilePic)
          (fileField req.profilePic2) (fileField req.resumePdf) (fileField req.video)
          req.aboutText).profilePic2 = some ("/uploads/images/" ++ storedFilename f) := by
        simp [mergedProfile, hf, dbPath_some]
      refine ⟨hslot, ?_, ?_⟩
      · rw [hslot, resolvedTarget_images, storedLocation_image (hm2 f hf)]
      · rw [hslot, resolvedTarget_images]
        show "uploads/images/" ++ storedFilename f ∈
          reclaimIf (fileField req.video) profile.video
            (reclaimIf (fileField req.resumePdf) profile.pdf
              (reclaimIf (fileField req.profilePic2) profile.profilePic2
                (reclaimIf (fileField req.profilePic) profile.profilePic
                  (multerWrite req st.fs))))
        rw [← storedLocation_image (hm2 f hf)]
        exact mem_reclaim4 (pic2_mem_multerWrite hf) hfr.1 hfr.2.1 hfr.2.2.1 hfr.2.2.2
    · intro f hf
      have hfr := hfresh profile hfind f (Or.inr (Or.inr (Or.inl hf)))
      have hslot : (mergedProfile profile (req.name.getD "") (fileField req.profilePic)
          (fileField req.profilePic2) (fileField req.resumePdf) (fileField req.video)
          req.aboutText).pdf = some ("/uploads/pdfs/" ++ storedFilename f) := by
        simp [mergedProfile, hf, dbPath_some]
      refine ⟨hslot, ?_, ?_⟩
      · rw [hslot, resolvedTarget_pdfs, storedLocation_pdf (hm3 f hf)]
      · rw [hslot, resolvedTarget_pdfs]
        show "uploads/pdfs/" ++ storedFilename f ∈
          reclaimIf (fileField req.video) profile.video
            (reclaimIf (fileField req.resumePdf) profile.pdf
              (reclaimIf (fileField req.profilePic2) profile.profilePic2
                (reclaimIf (fileField req.profilePic) profile.profilePic
                  (multerWrite req st.fs))))
        rw [← storedLocation_pdf (hm3 f hf)]
        exact mem_reclaim4 (resume_mem_multerWrite hf) hfr.1 hfr.2.1 hfr.2.2.1 hfr.2.2.2
    · intro f hf
      have hfr := hfresh profile hfind f (Or.inr (Or.inr (Or.inr hf)))
      have hslot : (mergedProfile profile (req.name.getD "") (fileField req.profilePic)
          (fileField req.profilePic2) (fileField req.resumePdf) (fileField req.video)
          req.aboutText).video = some ("/uploads/videos/" ++ storedFilename f) := by
        simp [mergedProfile, hf, dbPath_some]
      refine ⟨hslot, ?_, ?_⟩
      · rw [hslot, resolvedTarget_videos, storedLocation_video (hm4 f hf)]
      · rw [hslot, resolvedTarget_videos]
        show "uploads/videos/" ++ storedFilename f ∈
          reclaimIf (fileField req.video) profile.video
            (reclaimIf (fileField req.resumePdf) profile.pdf
              (reclaimIf (fileField req.profilePic2) profile.profilePic2
                (reclaimIf (fileField req.profilePic) profile.profilePic
                  (multerWrite req st.fs))))
        rw [← storedLocation_video (hm4 f hf)]
        exact mem_reclaim4 (video_mem_multerWrite hf) hfr.1 hfr.2.1 hfr.2.2.1 hfr.2.2.2

theorem c1_path_invariant_amended_witness :
    (updateProfile
      { user := some 1, name := some "Me", phoneNumber := none, degree := none,
        birthday := none, address := none, experience := none, aboutText := none,
        profilePic := some ⟨"image/png", "a.png", 7⟩, profilePic2 := none,
        resumePdf := some ⟨"application/pdf", "r doc.pdf", 8⟩, video := none }
      { fs := [], profiles := [], users := [], educations := [], experiences := [] }).1
      = 200 ∧
    ∀ p', (updateProfile
      { user := some 1, name := some "Me", phoneNumber := none, degree := none,
        birthday := none, address := none, experience := none, aboutText := none,
        profilePic := some ⟨"image/png", "a.png", 7⟩, profilePic2 := none,
        resumePdf := some ⟨"application/pdf", "r doc.pdf", 8⟩, video := none }
      { fs := [], profiles := [], users := [], educations := [], experiences := [] }).2.1
      = some p' →
      p'.profilePic = some "/uploads/images/7-a.png" ∧
      resolvedTarget p'.profilePic ∈ (updateProfile
        { user := some 1, name := some "Me", phoneNumber := none, degree := none,
          birthday := none, address := none, experience := none, aboutText := none,
          profilePic := some ⟨"image/png", "a.png", 7⟩, profilePic2 := none,
          resumePdf := some ⟨"application/pdf", "r doc.pdf", 8⟩, video := none }
        { fs := [], profiles := [], users := [], educations := [], experiences := [] }).2.2.fs ∧
      p'.pdf = some "/uploads/pdfs/8-r_doc.pdf" ∧
      resolvedTarget p'.pdf ∈ (updateProfile
        { user := some 1, name := some "Me", phoneNumber := none, degree := none,
          birthday := none, address := none, experience := none, aboutText := none,
          profilePic := some ⟨"image/png", "a.png", 7⟩, profilePic2 := none,
          resumePdf := some ⟨"application/pdf", "r doc.pdf", 8⟩, video := none }
        { fs := [], profiles := [], users := [], educations := [], experiences := [] }).2.2.fs := by
  have h := c1_path_invariant_amended
    { user := some 1, name := some "Me", phoneNumber := none, degree := none,
      birthday := none, address := none, experience := none, aboutText := none,
      profilePic := some ⟨"image/png", "a.png", 7⟩, profilePic2 := none,
      resumePdf := some ⟨"application/pdf", "r doc.pdf", 8⟩, video := none }
    { fs := [], profiles := [], users := [], educations := [], experiences := [] }
    1 rfl (by decide)
    (by intro f hf; rw [← Option.some_inj.mp hf]; decide)
    (by intro f hf; simp at hf)
    (by intro f hf; rw [← Option.some_inj.mp hf])
    (by intro f hf; simp at hf)
    (by intro p hp; simp at hp)
  refine ⟨h.1, ?_⟩
  intro p' hp'
  have h2 := h.2 p' hp'
  have ha := h2.1 ⟨"image/png", "a.png", 7⟩ rfl
  have hc := h2.2.2.1 ⟨"application/pdf", "r doc.pdf", 8⟩ rfl
  refine ⟨?_, ha.2.2, ?_, hc.2.2⟩
  · rw [ha.1]
    decide
  · rw [hc.1]
    decide

/-- C2 counterexample: replacing an existing profilePic with an upload whose
declared media type is video/mp4 deletes the prior file and returns 200, but
the returned profiles path for the slot is /uploads/images/7-new.mp4 while
the new payload was written to uploads/videos/7-new.mp4: the returned path
does not point at the newly stored file, refuting the claim as stated. -/
theorem c2_reclamation_counterexample :
    (updateProfile
      { user := some 1, name := some "Me", phoneNumber := none, degree := none,
        birthday := none, address := none, experience := none, aboutText := none,
        profilePic := some ⟨"video/mp4", "new.mp4", 7⟩, profilePic2 := none,
        resumePdf := none, video := none }
      { fs := ["uploads/images/old.png"],
        profiles := [⟨1, "Old", some "/uploads/images/old.png", none, none, none, none⟩],
        users := [], educations := [], experiences := [] }).1 = 200 ∧
    (updateProfile
      { user := some 1, name := some "Me", phoneNumber := none, degree := none,
        birthday := none, address := none, experience := none, aboutText := none,
        profilePic := some ⟨"video/mp4", "new.mp4", 7⟩, profilePic2 := none,
        resumePdf := none, video := none }
      { fs := ["uploads/images/old.png"],
        profiles := [⟨1, "Old", some "/uploads/images/old.png", none, none, none, none⟩],
        users := [], educations := [], experiences := [] }).2.2.fs
      = ["uploads/videos/7-new.mp4"] ∧
    (updateProfile
      { user := some 1, name := some "Me", phoneNumber := none, degree := none,
        birthday := none, address := none, experience := none, aboutText := none,
        profilePic := some ⟨"video/mp4", "new.mp4", 7⟩, profilePic2 := none,
        resumePdf := none, video := none }
      { fs := ["uploads/images/old.png"],
        profiles := [⟨1, "Old", some "/uploads/images/old.png", none, none, none, none⟩],
        users := [], educations := [], experiences := [] }).2.1
      = some ⟨1, "Me", some "/uploads/images/7-new.mp4", none, none, none, none⟩ ∧
    resolvedTarget (some "/uploads/images/7-new.mp4") ∉ ["uploads/videos/7-new.mp4"] := by
  decide

/-- C2 amended: for every valid profile update on an existing profile, a slot
that receives a new upload while already holding a truthy path has that prior
paths resolved target absent from the storage backend when the call
completes, and the returned profiles path for the slot is the slots fixed
bucket plus the newly generated filename — which resolves to the newly stored
files location whenever the declared media type classifies to that slots
bucket; moreover anything deleted from the backend is the resolved prior path
of a slot that was actually re-uploaded, so slots that were not re-uploaded
never trigger deletion. -/
theorem c2_reclamation_amended (req : UpdateReq) (st : St) (uid : Nat) (profile : Profile)
    (hu : req.user = some uid) (hn : truthy req.name = true)
    (hp : st.profiles.find? (fun q => q.userId == uid) = some profile) :
    (updateProfile req st).1 = 200 ∧
    (∀ f, req.profilePic = some f → truthy profile.profilePic = true →
      resolvedTarget profile.profilePic ∉ (updateProfile req st).2.2.fs ∧
      ∀ p', (updateProfile req st).2.1 = some p' →
        p'.profilePic = some ("/uploads/images/" ++ storedFilename f) ∧
        (jsStartsWith f.mimetype "image/" = true →
          resolvedTarget p'.profilePic = storedLocation f)) ∧
    (∀ f, req.profilePic2 = some f → truthy profile.profilePic2 = true →
      resolvedTarget profile.profilePic2 ∉ (updateProfile req st).2.2.fs ∧
      ∀ p', (updateProfile req st).2.1 = some p' →
        p'.profilePic2 = some ("/uploads/images/" ++ storedFilename f) ∧
        (jsStartsWith f.mimetype "image/" = true →
          resolvedTarget p'.profilePic2 = storedLocation f)) ∧
    (∀ f, req.resumePdf = some f → truthy profile.pdf = true →
      resolvedTarget profile.pdf ∉ (updateProfile req st).2.2.fs ∧
      ∀ p', (updateProfile req st).2.1 = some p' →
        p'.pdf = some ("/uploads/pdfs/" ++ storedFilename f) ∧
        (f.mimetype = "application/pdf" →
          resolvedTarget p'.pdf = storedLocation f)) ∧
    (∀ f, req.video = some f → truthy profile.video = true →
      resolvedTarget profile.video ∉ (updateProfile req st).2.2.fs ∧
      ∀ p', (updateProfile req st).2.1 = some p' →
        p'.video = some ("/uploads/videos/" ++ storedFilename f) ∧
        (jsStartsWith f.mimetype "video/" = true →
          resolvedTarget p'.video = storedLocation f)) ∧
    (∀ x ∈ st.fs, x ∉ (updateProfile req st).2.2.fs →
      (req.profilePic.isSome = true ∧ x = resolvedTarget profile.profilePic) ∨
      (req.profilePic2.isSome = true ∧ x = resolvedTarget profile.profilePic2) ∨
      (req.resumePdf.isSome = true ∧ x = resolvedTarget profile.pdf) ∨
      (req.video.isSome = true ∧ x = resolvedTarget profile.video)) := by
  have hfs : (updateProfile req st).2.2.fs =
      reclaimIf (fileField req.video) profile.video
        (reclaimIf (fileField req.resumePdf) profile.pdf
          (reclaimIf (fileField req.profilePic2) profile.profilePic2
            (reclaimIf (fileField req.profilePic) profile.profilePic
              (multerWrite req st.fs)))) := by
    rw [updateProfile_found req st uid profile hu hn hp]
  have hret : (updateProfile req st).2.1 =
      some (mergedProfile profile (req.name.getD "") (fileField req.profilePic)
        (fileField req.profilePic2) (fileField req.resumePdf) (fileField req.video)
        req.aboutText) := by
    rw [updateProfile_found req st uid profile hu hn hp]
  refine ⟨updateProfile_status_ok req st uid hu hn, ?_, ?_, ?_, ?_, ?_⟩
  · intro f hf hold
    have hn1 : truthy (fileField req.profilePic) = true := by
      rw [hf]; exact truthy_fileField_some f
    constructor
    · rw [hfs]
      exact not_mem_reclaimIf_of_not_mem (not_mem_reclaimIf_of_not_mem
        (not_mem_reclaimIf_of_not_mem (target_not_mem_reclaimIf hn1 hold)))
    · intro p' hp'
      rw [hret] at hp'
      have hep : p' = mergedProfile profile (req.name.getD "") (fileField req.profilePic)
          (fileField req.profilePic2) (fileField req.resumePdf) (fileField req.video)
          req.aboutText := by simpa using hp'.symm
      subst hep
      have hslot : (mergedProfile profile (req.name.getD "") (fileField req.profilePic)
          (fileField req.profilePic2) (fileField req.resumePdf) (fileField req.video)
          req.aboutText).profilePic = some ("/uploads/images/" ++ storedFilename f) := by
        simp [mergedProfile, hf, dbPath_some]
      refine ⟨hslot, ?_⟩
      intro himg
      rw [hslot, resolvedTarget_images, storedLocation_image himg]
  · intro f hf hold
    have hn2 : truthy (fileField req.profilePic2) = true := by
      rw [hf]; exact truthy_fileField_some f
    constructor
    · rw [hfs]
      exact not_mem_reclaimIf_of_not_mem (not_mem_reclaimIf_of_not_mem
        (target_not_mem_reclaimIf hn2 hold))
    · intro p' hp'
      rw [hret] at hp'
      have hep : p' = mergedProfile profile (req.name.getD "") (fileField req.profilePic)
          (fileField req.profilePic2) (fileField req.resumePdf) (fileField req.video)
          req.aboutText := by simpa using hp'.symm
      subst hep
      have hslot : (mergedProfile profile (req.name.getD "") (fileField req.profilePic)
          (fileField req.profilePic2) (fileField req.resumePdf) (fileField req.video)
          req.aboutText).profilePic2 = some ("/uploads/images/" ++ storedFilename f) := by
        simp [mergedProfile, hf, dbPath_some]
      refine ⟨hslot, ?_⟩
      intro himg
      rw [hslot, resolvedTarget_images, storedLocation_image himg]
  · intro f hf hold
    have hn3 : truthy (fileField req.resumePdf) = true := by
      rw [hf]; exact truthy_fileField_some f
    constructor
    · rw [hfs]
      exact not_mem_reclaimIf_of_not_mem (target_not_mem_reclaimIf hn3 hold)
    · intro p' hp'
      rw [hret] at hp'
      have hep : p' = mergedProfile profile (req.name.getD "") (fileField req.profilePic)
          (fileField req.profilePic2) (fileField req.resumePdf) (fileField req.video)
          req.aboutText := by simpa using hp'.symm
      subst hep
      have hslot : (mergedProfile profile (req.name.getD "") (fileField req.profilePic)
          (fileField req.profilePic2) (fileField req.resumePdf) (fileField req.video)
          req.aboutText).pdf = some ("/uploads/pdfs/" ++ storedFilename f) := by
        simp [mergedProfile, hf, dbPath_some]
      refine ⟨hslot, ?_⟩
      intro hmt
      rw [hslot, resolvedTarget_pdfs, storedLocation_pdf hmt]
  · intro f hf hold
    have hn4 : truthy (fileField req.video) = true := by
      rw [hf]; exact truthy_fileField_some f
    constructor
    · rw [hfs]
      exact target_not_mem_reclaimIf hn4 hold
    · intro p' hp'
      rw [hret] at hp'
      have hep : p' = mergedProfile profile (req.name.getD "") (fileField req.profilePic)
          (fileField req.profilePic2) (fileField req.resumePdf) (fileField req.video)
          req.aboutText := by simpa using hp'.symm
      subst hep
      have hslot : (mergedProfile profile (req.name.getD "") (fileField req.profilePic)
          (fileField req.profilePic2) (fileField req.resumePdf) (fileField req.video)
          req.aboutText).video = some ("/uploads/videos/" ++ storedFilename f) := by
        simp [mergedProfile, hf, dbPath_some]
      refine ⟨hslot, ?_⟩
      intro hmt
      rw [hslot, resolvedTarget_videos, storedLocation_video hmt]
  · intro x hx hnot
    rw [hfs] at hnot
    have hx0 : x ∈ multerWrite req st.fs := mem_multerWrite hx
    by_cases h3 : x ∈ reclaimIf (fileField req.resumePdf) profile.pdf
        (reclaimIf (fileField req.profilePic2) profile.profilePic2
          (reclaimIf (fileField req.profilePic) profile.profilePic (multerWrite req st.fs)))
    · have hc := reclaimIf_remove_cases h3 hnot
      exact Or.inr (Or.inr (Or.inr ⟨isSome_of_truthy_fileField hc.1, hc.2.2⟩))
    · by_cases h2 : x ∈ reclaimIf (fileField req.profilePic2) profile.profilePic2
          (reclaimIf (fileField req.profilePic) profile.profilePic (multerWrite req st.fs))
      · have hc := reclaimIf_remove_cases h2 h3
        exact Or.inr (Or.inr (Or.inl ⟨isSome_of_truthy_fileField hc.1, hc.2.2⟩))
      · by_cases h1 : x ∈ reclaimIf (fileField req.profilePic) profile.profilePic
            (multerWrite req st.fs)
        · have hc := reclaimIf_remove_cases h1 h2
          exact Or.inr (Or.inl ⟨isSome_of_truthy_fileField hc.1, hc.2.2⟩)
        · have hc := reclaimIf_remove_cases hx0 h1
          exact Or.inl ⟨isSome_of_truthy_fileField hc.1, hc.2.2⟩

theorem c2_reclamation_amended_witness :
    (updateProfile
      { user := some 1, name := some "Me", phoneNumber := none, degree := none,
        birthday := none, address := none, experience := none, aboutText := none,
        profilePic := some ⟨"image/png", "new.png", 9⟩, profilePic2 := none,
        resumePdf := none, video := none }
      { fs := ["uploads/images/old.png"],
        profiles := [⟨1, "Old", some "/uploads/images/old.png", none, none, none, none⟩],
        users := [], educations := [], experiences := [] }).1 = 200 ∧
    resolvedTarget (some "/uploads/images/old.png") ∉ (updateProfile
      { user := some 1, name := some "Me", phoneNumber := none, degree := none,
        birthday := none, address := none, experience := none, aboutText := none,
        profilePic := some ⟨"image/png", "new.png", 9⟩, profilePic2 := none,
        resumePdf := none, video := none }
      { fs := ["uploads/images/old.png"],
        profiles := [⟨1, "Old", some "/uploads/images/old.png", none, none, none, none⟩],
        users := [], educations := [], experiences := [] }).2.2.fs ∧
    ∀ p', (updateProfile
      { user := some 1, name := some "Me", phoneNumber := none, degree := none,
        birthday := none, address := none, experience := none, aboutText := none,
        profilePic := some ⟨"image/png", "new.png", 9⟩, profilePic2 := none,
        resumePdf := none, video := none }
      { fs := ["uploads/images/old.png"],
        profiles := [⟨1, "Old", some "/uploads/images/old.png", none, none, none, none⟩],
        users := [], educations := [], experiences := [] }).2.1 = some p' →
      p'.profilePic = some "/uploads/images/9-new.png" ∧
      resolvedTarget p'.profilePic = storedLocation ⟨"image/png", "new.png", 9⟩ := by
  have h := c2_reclamation_amended
    { user := some 1, name := some "Me", phoneNumber := none, degree := none,
      birthday := none, address := none, experience := none, aboutText := none,
      profilePic := some ⟨"image/png", "new.png", 9⟩, profilePic2 := none,
      resumePdf := none, video := none }
    { fs := ["uploads/images/old.png"],
      profiles := [⟨1, "Old", some "/uploads/images/old.png", none, none, none, none⟩],
      users := [], educations := [], experiences := [] }
    1 ⟨1, "Old", some "/uploads/images/old.png", none, none, none, none⟩
    rfl (by decide) rfl
  have ha := h.2.1 ⟨"image/png", "new.png", 9⟩ rfl (by decide)
  refine ⟨h.1, ha.1, ?_⟩
  intro p' hp'
  have hb := ha.2 p' hp'
  refine ⟨?_, hb.2 (by decide)⟩
  rw [hb.1]
  decide
